import Mathlib

/-!
Verification of the NanoHatOLED repository (package `nanohatoled` plus the
`main` daemon in `nanohat-oled`).  The Go source is shallowly embedded:
machine integers become `Int`/`Nat` (Go's `/` on `int` truncates toward
zero, so it is `Int.tdiv`; `%` is `Int.tmod`; `y & 7` on two's-complement
integers equals `Int.emod y 8`), byte slices become `List Nat` of values
below 256, and fallible functions return an explicit result type.  Effects
on the I2C bus are tracked as a write counter; the external rendering
libraries (freetype, imaging) and the metric providers are abstracted as
parameters where a claim does not depend on their internals.
-/

set_option maxRecDepth 100000

namespace NanoHatOled

/-! ## Display controller driver: pixel buffer and `setPixel`

Embeds `NanoOled` from `ext/nanohatoled.go` restricted to the fields the
pixel-buffer claims depend on (`w`, `h`, `buf`); the device handle, fonts
and rotation state are irrelevant to `setPixel` and modelled elsewhere. -/

structure Oled where
  w : Int
  h : Int
  buf : List Nat
deriving DecidableEq, Repr

/-- Error identities of the two `fmt.Errorf` returns in `setPixel`. -/
inductive PixErr where
  | outOfBounds
  | invalidValue
deriving DecidableEq, Repr

/-- Result of a `setPixel` call.  `err` carries the (unmutated) receiver so
that "the buffer is unchanged on error" is visible in the result; `crashed`
models the Go runtime index-out-of-range panic that a negative buffer index
would raise. -/
inductive SetPixelOut where
  | ok (o : Oled)
  | err (e : PixErr) (o : Oled)
  | crashed
deriving DecidableEq, Repr

/-- The buffer index `i := 1 + x + (y/8)*w` computed by `setPixel`; Go's
`/` on `int` truncates toward zero, hence `Int.tdiv`. -/
def pixIndex (o : Oled) (x y : Int) : Int := 1 + x + (Int.tdiv y 8) * o.w

/-- The bit position `y & 7` computed by `setPixel`; a two's-complement
`AND` with the mask 7 equals `Int.emod y 8`. -/
def pixBitPos (y : Int) : Nat := (Int.emod y 8).toNat

/-- `setPixel` from `ext/nanohatoled.go:319`.  The Go code checks only the
upper bounds (`x >= w || y >= h`) and `v > 1`.  The clear branch is
`buf[i] &= ^(1 << u)` (complement on a byte is `255 ^^^ ·`), the set branch
is `buf[i] |= 1 << u`. -/
def setPixel (o : Oled) (x y : Int) (v : Nat) : SetPixelOut :=
  if o.w ≤ x ∨ o.h ≤ y then .err .outOfBounds o
  else if 1 < v then .err .invalidValue o
  else
    let i : Int := pixIndex o x y
    if 0 ≤ i ∧ i < (o.buf.length : Int) then
      let u : Nat := pixBitPos y
      let b : Nat := o.buf.getD i.toNat 0
      let nb : Nat := if v = 0 then b &&& (255 ^^^ (1 <<< u)) else b ||| (1 <<< u)
      .ok { o with buf := o.buf.set i.toNat nb }
    else .crashed

/-- The addressed buffer bit for coordinate `(x, y)`: the same index and bit
position that `setPixel` writes. -/
def bufBit (o : Oled) (x y : Int) : Nat :=
  (o.buf.getD (pixIndex o x y).toNat 0 >>> pixBitPos y) &&& 1

/-- The driver state produced by `Open`: 128×64 panel, buffer of
`128*(64/8)+1 = 1025` bytes whose leading byte is the `0x40` framing byte. -/
def oled0 : Oled := ⟨128, 64, 64 :: List.replicate 1024 0⟩

/-- `oled0` after the write that `setPixel(0, -1, 1)` performs: index
`1 + 0 + ((-1)/8)*128 = 1` (truncating division), bit `(-1) & 7 = 7`. -/
def oled0neg : Oled := ⟨128, 64, (64 :: List.replicate 1024 0).set 1 128⟩

/-! Byte-level helper facts, proved by exhausting all byte values and bit
positions. -/

theorem byteRestoreSet : ∀ b < 256, ∀ u < 8, ((b >>> u) &&& 1 = 1) →
    (b &&& (255 ^^^ (1 <<< u))) ||| (1 <<< u) = b := by decide

theorem byteRestoreClear : ∀ b < 256, ∀ u < 8, ((b >>> u) &&& 1 = 0) →
    (b ||| (1 <<< u)) &&& (255 ^^^ (1 <<< u)) = b := by decide

theorem list_set_getElem_self {l : List Nat} {i : Nat} (h : i < l.length) :
    l.set i l[i] = l := by
  apply List.ext_getElem
  · simp
  · intro j h1 h2
    rw [List.getElem_set]
    split
    · subst j; rfl
    · rfl

/-- Claim C3 (counterexample): `setPixel` with the negative coordinate
`y = -1` on the freshly opened 128×64 driver returns no error and mutates
the buffer (it sets bit 7 of data byte 1), refuting "every call outside the
bounds, including negative x or y, returns the corresponding error and
leaves every byte unchanged". -/
theorem setPixel_negative_counterexample :
    setPixel oled0 0 (-1) 1 = SetPixelOut.ok oled0neg ∧ oled0neg.buf ≠ oled0.buf := by
  constructor
  · decide
  · decide

/-- Claim C3 (amended): `setPixel` rejects only coordinates at or above the
upper bounds (`x ≥ w` or `y ≥ h`) with the out-of-bounds error, and values
`v > 1` (when the upper bounds hold) with the invalid-value error, leaving
the buffer unchanged in both cases; negative coordinates are not checked
and proceed to index the buffer. -/
theorem setPixel_reject_spec (o : Oled) (x y : Int) (v : Nat) :
    ((o.w ≤ x ∨ o.h ≤ y) → setPixel o x y v = SetPixelOut.err PixErr.outOfBounds o) ∧
    (x < o.w → y < o.h → 1 < v → setPixel o x y v = SetPixelOut.err PixErr.invalidValue o) := by
  constructor
  · intro h
    unfold setPixel
    rw [if_pos h]
  · intro hx hy hv
    unfold setPixel
    rw [if_neg (by omega), if_pos hv]

/-- Witness for C3: a coordinate past the right edge is rejected as
out-of-bounds, and an in-bounds call with `v = 2` is rejected as an invalid
pixel value. -/
theorem setPixel_reject_spec_witness :
    setPixel ⟨128, 64, [64]⟩ 128 0 0 = SetPixelOut.err PixErr.outOfBounds ⟨128, 64, [64]⟩ ∧
    setPixel ⟨128, 64, [64]⟩ 0 0 2 = SetPixelOut.err PixErr.invalidValue ⟨128, 64, [64]⟩ :=
  ⟨(setPixel_reject_spec ⟨128, 64, [64]⟩ 128 0 0).1 (Or.inl (by decide)),
   (setPixel_reject_spec ⟨128, 64, [64]⟩ 0 0 2).2 (by decide) (by decide) (by decide)⟩

/-- Evaluation of `setPixel` in the in-range clear branch (`v = 0`), with
the buffer index supplied as a natural number. -/
theorem setPixel_eval_clear (o : Oled) (x y : Int) (i : Nat)
    (h1 : ¬(o.w ≤ x ∨ o.h ≤ y))
    (hi : pixIndex o x y = (i : Int)) (h4 : i < o.buf.length) :
    setPixel o x y 0 = SetPixelOut.ok { o with buf := (o.buf.set i
      ((o.buf.getD i 0) &&& (255 ^^^ (1 <<< pixBitPos y)))) } := by
  unfold setPixel
  rw [if_neg h1, if_neg (by omega), hi]
  rw [if_pos ⟨by positivity, by exact_mod_cast h4⟩]
  simp

/-- Evaluation of `setPixel` in the in-range set branch (`v = 1`), with
the buffer index supplied as a natural number. -/
theorem setPixel_eval_set (o : Oled) (x y : Int) (i : Nat)
    (h1 : ¬(o.w ≤ x ∨ o.h ≤ y))
    (hi : pixIndex o x y = (i : Int)) (h4 : i < o.buf.length) :
    setPixel o x y 1 = SetPixelOut.ok { o with buf := (o.buf.set i
      ((o.buf.getD i 0) ||| (1 <<< pixBitPos y))) } := by
  unfold setPixel
  rw [if_neg h1, if_neg (by omega), hi]
  rw [if_pos ⟨by positivity, by exact_mod_cast h4⟩]
  simp

/-- `oled0` with the bit of pixel `(0, 0)` set: data byte 1 becomes 1. -/
def oled0bit : Oled := ⟨128, 64, (64 :: List.replicate 1024 0).set 1 1⟩

/-- Claim C6 (counterexample): on the freshly opened driver (all pixels
clear) the pair `setPixel(0,0,0)` then `setPixel(0,0,1)` leaves the
addressed bit set, not restored to its initial clear state, refuting the
unconditional round-trip claim. -/
theorem setPixel_roundtrip_counterexample :
    setPixel oled0 0 0 0 = SetPixelOut.ok oled0 ∧
    setPixel oled0 0 0 1 = SetPixelOut.ok oled0bit ∧
    oled0bit.buf ≠ oled0.buf := by
  refine ⟨by decide, by decide, by decide⟩

/-- Claim C6 (amended): for every in-bounds `(x, y)` and `v ∈ {0, 1}`, if
the addressed buffer bit initially equals `1 − v`, then `setPixel(x,y,v)`
followed by `setPixel(x,y,1−v)` restores the entire buffer — in particular
the addressed bit — to its state before the first call.  (When the bit
initially equals `v`, the pair instead leaves it at `1 − v`, as the
counterexample shows.) -/
theorem setPixel_roundtrip_spec (o : Oled) (x y : Int) (v : Nat)
    (hw : o.w = 128) (hh : o.h = 64) (hlen : o.buf.length = 1025)
    (hbytes : ∀ b ∈ o.buf, b < 256)
    (hx0 : 0 ≤ x) (hx : x < 128) (hy0 : 0 ≤ y) (hy : y < 64)
    (hv : v ≤ 1) (hbit : bufBit o x y = 1 - v) :
    ∃ o1 o2, setPixel o x y v = SetPixelOut.ok o1 ∧
      setPixel o1 x y (1 - v) = SetPixelOut.ok o2 ∧ o2 = o := by
  obtain ⟨w, h, bl⟩ := o
  simp only at hw hh hlen hbytes hbit
  subst hw hh
  have htd : Int.tdiv y 8 = y / 8 := Int.tdiv_eq_ediv hy0 (by norm_num)
  have hpi : pixIndex ⟨128, 64, bl⟩ x y = 1 + x + (y / 8) * 128 := by
    unfold pixIndex; rw [htd]
  have hc1 : ¬((128 : Int) ≤ x ∨ (64 : Int) ≤ y) := by omega
  have hi0 : 0 ≤ pixIndex ⟨128, 64, bl⟩ x y := by rw [hpi]; omega
  have hi4 : pixIndex ⟨128, 64, bl⟩ x y < 1025 := by rw [hpi]; omega
  have hiN : pixIndex ⟨128, 64, bl⟩ x y =
      (((pixIndex ⟨128, 64, bl⟩ x y).toNat : Nat) : Int) := by omega
  have hitlen : (pixIndex ⟨128, 64, bl⟩ x y).toNat < bl.length := by rw [hlen]; omega
  have hem0 : 0 ≤ Int.emod y 8 := Int.emod_nonneg y (by norm_num)
  have hem8 : Int.emod y 8 < 8 := Int.emod_lt_of_pos y (by norm_num)
  have hu8 : pixBitPos y < 8 := by unfold pixBitPos; omega
  set iN : Nat := (pixIndex ⟨128, 64, bl⟩ x y).toNat with hiNdef
  have hgd : bl.getD iN 0 = bl[iN] := List.getD_eq_getElem bl 0 hitlen
  have hb : bl[iN] < 256 := hbytes _ (List.getElem_mem hitlen)
  have hv01 : v = 0 ∨ v = 1 := by omega
  rcases hv01 with hv0 | hv1
  · -- v = 0: clear then set; the addressed bit starts at 1
    subst hv0
    have hbit1 : (bl[iN] >>> pixBitPos y) &&& 1 = 1 := by
      unfold bufBit at hbit
      rw [hgd] at hbit
      simpa using hbit
    have e1 := setPixel_eval_clear ⟨128, 64, bl⟩ x y iN hc1 hiN hitlen
    have hi2 : pixIndex ⟨128, 64, (bl.set iN ((bl.getD iN 0) &&&
        (255 ^^^ (1 <<< pixBitPos y))))⟩ x y = (iN : Int) := hiN
    have hlen2 : iN < (bl.set iN ((bl.getD iN 0) &&&
        (255 ^^^ (1 <<< pixBitPos y)))).length := by
      rw [List.length_set]; exact hitlen
    have e2 := setPixel_eval_set ⟨128, 64, (bl.set iN ((bl.getD iN 0) &&&
        (255 ^^^ (1 <<< pixBitPos y))))⟩ x y iN hc1 hi2 hlen2
    refine ⟨_, _, e1, e2, ?_⟩
    have hget1 : (bl.set iN ((bl.getD iN 0) &&& (255 ^^^ (1 <<< pixBitPos y)))).getD iN 0 =
        (bl.getD iN 0) &&& (255 ^^^ (1 <<< pixBitPos y)) := by
      rw [List.getD_eq_getElem _ 0 hlen2]
      exact List.getElem_set_self hlen2
    show Oled.mk 128 64 _ = Oled.mk 128 64 bl
    rw [hget1, List.set_set, hgd, byteRestoreSet _ hb _ hu8 hbit1,
      list_set_getElem_self hitlen]
  · -- v = 1: set then clear; the addressed bit starts at 0
    subst hv1
    have hbit0 : (bl[iN] >>> pixBitPos y) &&& 1 = 0 := by
      unfold bufBit at hbit
      rw [hgd] at hbit
      simpa using hbit
    have e1 := setPixel_eval_set ⟨128, 64, bl⟩ x y iN hc1 hiN hitlen
    have hi2 : pixIndex ⟨128, 64, (bl.set iN ((bl.getD iN 0) |||
        (1 <<< pixBitPos y)))⟩ x y = (iN : Int) := hiN
    have hlen2 : iN < (bl.set iN ((bl.getD iN 0) ||| (1 <<< pixBitPos y))).length := by
      rw [List.length_set]; exact hitlen
    have e2 := setPixel_eval_clear ⟨128, 64, (bl.set iN ((bl.getD iN 0) |||
        (1 <<< pixBitPos y)))⟩ x y iN hc1 hi2 hlen2
    refine ⟨_, _, e1, e2, ?_⟩
    have hget1 : (bl.set iN ((bl.getD iN 0) ||| (1 <<< pixBitPos y))).getD iN 0 =
        (bl.getD iN 0) ||| (1 <<< pixBitPos y) := by
      rw [List.getD_eq_getElem _ 0 hlen2]
      exact List.getElem_set_self hlen2
    show Oled.mk 128 64 _ = Oled.mk 128 64 bl
    rw [hget1, List.set_set, hgd, byteRestoreClear _ hb _ hu8 hbit0,
      list_set_getElem_self hitlen]

theorem oled0_bytes : ∀ b ∈ oled0.buf, b < 256 := by
  intro b hb
  simp only [oled0] at hb
  rcases List.mem_cons.mp hb with h | h
  · omega
  · have := List.eq_of_mem_replicate h
    omega

/-- Witness for C6: setting then clearing pixel `(0, 0)` on the fresh
driver (whose addressed bit is 0 = 1 − 1) restores the buffer. -/
theorem setPixel_roundtrip_spec_witness :
    ∃ o1 o2, setPixel oled0 0 0 1 = SetPixelOut.ok o1 ∧
      setPixel o1 0 0 (1 - 1) = SetPixelOut.ok o2 ∧ o2 = oled0 :=
  setPixel_roundtrip_spec oled0 0 0 1 rfl rfl (by decide) oled0_bytes
    (by decide) (by decide) (by decide) (by decide) (by decide) (by decide)

/-! ## Page state machine (`main` daemon globals, handlers and `drawPage`)

Embeds the daemon globals guarded by `pageMutex` together with the driver
buffer and a counter of I2C writes (`dev.Write` calls), so that "no buffer
mutation and no bus write" is expressible.  The handlers and `drawPage`
acquire the same single lock; in this sequential embedding each of them is
one atomic state transformation. -/

/-- `pageSleep = 10` from the daemon constants. -/
def pageSleep : Int := 10

structure AppState where
  pageIndex : Int
  pageSleepCount : Int
  drawing : Bool
  shutdownFlag : Bool
  shutdownSelect : Int
  lastPageIndex : Int
  lastTimeStr : String
  lastShutdownSel : Int
  staticDrawn : Bool
  buf : List Nat
  busWrites : Nat
deriving DecidableEq, Repr

/-- `resetSleepCount`: under the lock, reset the sleep counter to its
maximum and clear the static-clock-furniture-drawn flag. -/
def resetSleepCount (s : AppState) : AppState :=
  { s with pageSleepCount := pageSleep, staticDrawn := false }

/-- `handleK1`: reset the sleep counter, then (under the lock) toggle
`shutdownSelect` via `(shutdownSelect + 1) % 2` (Go's `%` is `Int.tmod`)
when on page 3, else go to page 0.  The log call is an external effect and
is not modelled. -/
def handleK1 (s : AppState) : AppState :=
  let t := resetSleepCount s
  if t.pageIndex = 3 then { t with shutdownSelect := Int.tmod (t.shutdownSelect + 1) 2 }
  else { t with pageIndex := 0 }

/-- `handleK2`: reset the sleep counter, then on page 3 either raise the
shutdown flag (`shutdownSelect = 0`) or go to page 0; from any other page
go to page 1. -/
def handleK2 (s : AppState) : AppState :=
  let t := resetSleepCount s
  if t.pageIndex = 3 then
    if t.shutdownSelect = 0 then { t with shutdownFlag := true }
    else { t with pageIndex := 0 }
  else { t with pageIndex := 1 }

/-- `handleK3`: reset the sleep counter, then toggle between page 3 (with
`shutdownSelect` forced to 1) and page 0. -/
def handleK3 (s : AppState) : AppState :=
  let t := resetSleepCount s
  if t.pageIndex = 3 then { t with pageIndex := 0 }
  else { t with pageIndex := 3, shutdownSelect := 1 }

/-- `oled.Clear()` zeroes the data region of the buffer, keeping the
leading framing byte and the length. -/
def clearBuf (b : List Nat) : List Nat :=
  match b with
  | [] => []
  | h :: t => h :: List.replicate t.length 0

/-- The sleep-expiry branch of `drawPage`: `oled.Clear()` zeroes the
buffer and flushes (2 `dev.Write` calls in `draw()`), `oled.Send()`
re-writes the all-black fresh canvas (every sampled gray value is 0, below
every threshold, so each `setPixel` writes 0 into the already-zero data
region) and flushes again (2 more writes); then `staticDrawn = false`,
`lastPageIndex = -1`, `pageSleepCount = -1`. -/
def sleepClearState (s : AppState) : AppState :=
  { s with buf := clearBuf s.buf, busWrites := s.busWrites + 4,
           staticDrawn := false, lastPageIndex := -1, pageSleepCount := -1 }

/-- The state in which the rendering switch of `drawPage` runs: the sleep
counter has been decremented and the drawing-in-progress flag set. -/
def renderEntryState (s : AppState) : AppState :=
  { s with pageSleepCount := s.pageSleepCount - 1, drawing := true }

/-- `drawPage`: a no-op if a draw is in progress or the shutdown flag is
set; on an expired counter clear once and pin the counter at −1; otherwise
decrement the counter, set the drawing flag, run the per-page rendering
switch (abstracted as the parameter `render`, since it reads the clock and
system metrics), and clear the drawing flag on return. -/
def drawPage (render : AppState → AppState) (s : AppState) : AppState :=
  if s.drawing = true ∨ s.shutdownFlag = true then s
  else if s.pageSleepCount ≤ 0 then
    if s.pageSleepCount = 0 then sleepClearState s else s
  else
    { render (renderEntryState s) with drawing := false }

/-- Shared helper: `drawPage` returns its input unchanged whenever the
drawing-in-progress flag or the shutdown flag is set. -/
theorem drawPage_stuck (render : AppState → AppState) (s : AppState)
    (h : s.drawing = true ∨ s.shutdownFlag = true) : drawPage render s = s := by
  unfold drawPage
  rw [if_pos h]

/-- Shared helper: once the sleep counter is negative, `drawPage` returns
its input unchanged. -/
theorem drawPage_neg (render : AppState → AppState) (s : AppState)
    (h : s.pageSleepCount < 0) : drawPage render s = s := by
  unfold drawPage
  rcases Decidable.em (s.drawing = true ∨ s.shutdownFlag = true) with hd | hd
  · rw [if_pos hd]
  · rw [if_neg hd, if_pos (by omega), if_neg (by omega)]

/-- A state on the clock page (page 0), as after startup. -/
def st0 : AppState := ⟨0, 10, false, false, 1, -1, "", -1, false, [64], 0⟩

/-- A state on the shutdown-confirm page with "No" selected. -/
def st3 : AppState := ⟨3, 10, false, false, 1, -1, "", -1, false, [64], 0⟩

/-- A state on the shutdown-confirm page with "Yes" selected. -/
def stYes : AppState := ⟨3, 10, false, false, 0, -1, "", -1, false, [64], 0⟩

/-- Claim C1: a K1 press toggles `shutdownSelect` between 0 and 1 (leaving
the page) when the page is ShutdownConfirm (3), and otherwise goes to the
Clock page (0); a K3 press goes to Clock when on ShutdownConfirm, and
otherwise enters ShutdownConfirm with `shutdownSelect` forced to 1. -/
theorem handleK1_handleK3_transitions (s : AppState) :
    (s.pageIndex = 3 → (handleK1 s).pageIndex = 3 ∧
      ((s.shutdownSelect = 0 ∨ s.shutdownSelect = 1) →
        (handleK1 s).shutdownSelect = 1 - s.shutdownSelect)) ∧
    (s.pageIndex ≠ 3 → (handleK1 s).pageIndex = 0 ∧
      (handleK1 s).shutdownSelect = s.shutdownSelect) ∧
    (s.pageIndex = 3 → (handleK3 s).pageIndex = 0 ∧
      (handleK3 s).shutdownSelect = s.shutdownSelect) ∧
    (s.pageIndex ≠ 3 → (handleK3 s).pageIndex = 3 ∧
      (handleK3 s).shutdownSelect = 1) := by
  refine ⟨?_, ?_, ?_, ?_⟩
  · intro hp
    refine ⟨by simp [handleK1, resetSleepCount, hp], ?_⟩
    rcases Classical.em (s.shutdownSelect = 0) with h0 | h0
    · intro _
      simp [handleK1, resetSleepCount, hp, h0]
      decide
    · intro hsel
      have h1 : s.shutdownSelect = 1 := by tauto
      simp [handleK1, resetSleepCount, hp, h1]
  · intro hp
    constructor <;> simp [handleK1, resetSleepCount, hp]
  · intro hp
    constructor <;> simp [handleK3, resetSleepCount, hp]
  · intro hp
    constructor <;> simp [handleK3, resetSleepCount, hp]

/-- Witness for C1: from ShutdownConfirm with "No" selected, K1 toggles the
selection to "Yes"; K3 leaves to the Clock page. -/
theorem handleK1_handleK3_transitions_witness :
    (handleK1 st3).shutdownSelect = 1 - st3.shutdownSelect ∧
    (handleK3 st3).pageIndex = 0 :=
  ⟨((handleK1_handleK3_transitions st3).1 rfl).2 (Or.inr rfl),
   ((handleK1_handleK3_transitions st3).2.2.1 rfl).1⟩

/-- Claim C2 (counterexample): K2 on ShutdownConfirm with "Yes" selected
raises the shutdown flag and leaves the page index at 3, but the flag is
not terminal for the page state: a subsequent K3 press still transitions
the page index from 3 to 0, because no button handler checks the flag. -/
theorem handleK2_terminal_counterexample :
    (handleK2 stYes).shutdownFlag = true ∧
    (handleK2 stYes).pageIndex = 3 ∧
    (handleK3 (handleK2 stYes)).pageIndex = 0 := by
  refine ⟨by decide, by decide, by decide⟩

/-- Claim C2 (amended): a K2 press raises the shutdown flag when the page
is ShutdownConfirm with `shutdownSelect = 0`, goes to Clock when
`shutdownSelect = 1`, and otherwise goes to SystemInfo.  Once raised, the
flag is never cleared by any subsequent button press and `drawPage` is a
no-op while it is set (the daemon's next heartbeat then shuts the process
down); the handlers themselves are not guarded by the flag, so the page
index can still change after it is raised. -/
theorem handleK2_shutdown_spec (s : AppState) :
    (s.pageIndex = 3 → s.shutdownSelect = 0 →
      (handleK2 s).shutdownFlag = true ∧ (handleK2 s).pageIndex = 3) ∧
    (s.pageIndex = 3 → s.shutdownSelect = 1 →
      (handleK2 s).pageIndex = 0 ∧ (handleK2 s).shutdownFlag = s.shutdownFlag) ∧
    (s.pageIndex ≠ 3 →
      (handleK2 s).pageIndex = 1 ∧ (handleK2 s).shutdownFlag = s.shutdownFlag) ∧
    (s.shutdownFlag = true →
      (handleK1 s).shutdownFlag = true ∧ (handleK2 s).shutdownFlag = true ∧
      (handleK3 s).shutdownFlag = true ∧
      ∀ render : AppState → AppState, drawPage render s = s) := by
  refine ⟨?_, ?_, ?_, ?_⟩
  · intro hp hsel
    constructor <;> simp [handleK2, resetSleepCount, hp, hsel]
  · intro hp hsel
    constructor <;> simp [handleK2, resetSleepCount, hp, hsel]
  · intro hp
    constructor <;> simp [handleK2, resetSleepCount, hp]
  · intro hflag
    refine ⟨?_, ?_, ?_, fun render => drawPage_stuck render s (Or.inr hflag)⟩
    · simp only [handleK1, resetSleepCount]
      split <;> simp [hflag]
    · simp only [handleK2, resetSleepCount]
      split
      · split <;> simp [hflag]
      · simp [hflag]
    · simp only [handleK3, resetSleepCount]
      split <;> simp [hflag]

/-- Witness for C2 (amended): K2 from ShutdownConfirm with "No" selected
returns to Clock; K2 from the Clock page goes to SystemInfo; with the flag
raised, every handler keeps it raised. -/
theorem handleK2_shutdown_spec_witness :
    (handleK2 st3).pageIndex = 0 ∧
    (handleK2 st0).pageIndex = 1 ∧
    (handleK1 (handleK2 stYes)).shutdownFlag = true :=
  ⟨((handleK2_shutdown_spec st3).2.1 rfl rfl).1,
   ((handleK2_shutdown_spec st0).2.2.1 (by decide)).1,
   ((handleK2_shutdown_spec (handleK2 stYes)).2.2.2 (by decide)).1⟩

/-- Claim C4: from a state with the sleep counter at 0 (and no draw in
progress, shutdown flag clear), `drawPage` clears the screen buffer
exactly once — the buffer data region is zeroed, the flush happens, and
the counter is pinned at −1 — and every further `drawPage` heartbeat call
leaves the state (buffer and bus-write counter included) unchanged; any
button press resets the counter to its maximum via `resetSleepCount`,
which also clears the static-furniture flag and touches neither buffer
nor bus. -/
theorem drawPage_sleep_spec (render : AppState → AppState) (s : AppState)
    (hd : s.drawing = false) (hf : s.shutdownFlag = false) :
    (s.pageSleepCount = 0 →
      (drawPage render s).buf = clearBuf s.buf ∧
      (drawPage render s).pageSleepCount = -1 ∧
      (drawPage render s).busWrites = s.busWrites + 4 ∧
      ∀ (n : Nat) (r2 : AppState → AppState),
        (drawPage r2)^[n] (drawPage render s) = drawPage render s) ∧
    ((resetSleepCount s).pageSleepCount = pageSleep ∧
     (resetSleepCount s).staticDrawn = false ∧
     (resetSleepCount s).buf = s.buf ∧
     (resetSleepCount s).busWrites = s.busWrites) := by
  constructor
  · intro h0
    have hdp : drawPage render s = sleepClearState s := by
      unfold drawPage
      rw [if_neg (by simp [hd, hf]), if_pos (by omega), if_pos h0]
    refine ⟨by rw [hdp]; rfl, by rw [hdp]; rfl, by rw [hdp]; rfl, ?_⟩
    intro n r2
    rw [hdp]
    induction n with
    | zero => rfl
    | succ k ih =>
        rw [Function.iterate_succ_apply,
          drawPage_neg r2 (sleepClearState s) (by show (-1 : Int) < 0; norm_num), ih]
  · exact ⟨rfl, rfl, rfl, rfl⟩

/-- A state whose sleep counter has just reached 0. -/
def stSleep : AppState := ⟨0, 0, false, false, 1, -1, "", -1, false, [64, 5], 0⟩

/-- Witness for C4: with the counter at 0, the draw clears the buffer data
region, pins the counter at −1, and a later heartbeat changes nothing. -/
theorem drawPage_sleep_spec_witness :
    (drawPage id stSleep).buf = clearBuf stSleep.buf ∧
    (drawPage id stSleep).pageSleepCount = -1 ∧
    (drawPage id)^[1] (drawPage id stSleep) = drawPage id stSleep ∧
    (resetSleepCount stSleep).pageSleepCount = pageSleep :=
  ⟨((drawPage_sleep_spec id stSleep rfl rfl).1 rfl).1,
   ((drawPage_sleep_spec id stSleep rfl rfl).1 rfl).2.1,
   ((drawPage_sleep_spec id stSleep rfl rfl).1 rfl).2.2.2 1 id,
   (drawPage_sleep_spec id stSleep rfl rfl).2.1⟩

/-- Claim C5: `drawPage` is a no-op — state, buffer and bus-write counter
all unchanged — whenever the drawing-in-progress flag or the shutdown flag
is set; and the state in which the rendering switch runs has the drawing
flag set, so any reentrant `drawPage` invocation during rendering is
likewise a no-op — at most one draw touches the buffer at a time. -/
theorem drawPage_guard_spec (render : AppState → AppState) (s : AppState) :
    ((s.drawing = true ∨ s.shutdownFlag = true) → drawPage render s = s) ∧
    (∀ r2 : AppState → AppState,
      drawPage r2 (renderEntryState s) = renderEntryState s) :=
  ⟨drawPage_stuck render s,
   fun r2 => drawPage_stuck r2 (renderEntryState s) (Or.inl rfl)⟩

/-- A state with a draw marked in progress. -/
def stBusy : AppState := ⟨0, 10, true, false, 1, -1, "", -1, false, [64], 0⟩

/-- Witness for C5: with the drawing flag set, `drawPage` changes nothing;
the render-entry state rejects reentry. -/
theorem drawPage_guard_spec_witness :
    drawPage id stBusy = stBusy ∧
    drawPage id (renderEntryState st0) = renderEntryState st0 :=
  ⟨(drawPage_guard_spec id stBusy).1 (Or.inl rfl),
   (drawPage_guard_spec id st0).2 id⟩

/-! ## Canvas rotation (`Send` prelude and `New`)

The image type and the `imaging.Rotate90/180/270` operations are external
library values, so they are parameters; `Send` only dispatches on the
`rotation` field and the `rotationState` idempotency flag. -/

structure Canvas (Img : Type) where
  rotation : Int
  rotationState : Bool
  image : Img
deriving DecidableEq

/-- The rotation prelude of `Send` (`ext/nanohatoled.go:250`): when
`rotationState` is still false, rotate the image by the configured angle
and set the flag; an unlisted angle (e.g. 0) falls through the `default`
case without setting the flag. -/
def sendRotate {Img : Type} (rot90 rot180 rot270 : Img → Img)
    (c : Canvas Img) : Canvas Img :=
  if c.rotationState = false then
    if c.rotation = 90 then { c with image := rot90 c.image, rotationState := true }
    else if c.rotation = 180 then { c with image := rot180 c.image, rotationState := true }
    else if c.rotation = 270 then { c with image := rot270 c.image, rotationState := true }
    else c
  else c

/-- `New` (`ext/nanohatoled.go:190`): store the requested rotation, clear
the rotation-applied flag and allocate a fresh image whose dimensions
depend on the rotation (the `Clear` call it also makes touches the pixel
buffer, not the canvas fields modelled here). -/
def canvasNew {Img : Type} (freshImage : Int → Img) (rotation : Int)
    (c : Canvas Img) : Canvas Img :=
  { c with rotation := rotation, rotationState := false, image := freshImage rotation }

/-- Claim C9: `Send` applies the configured 90/180/270-degree rotation
exactly once per canvas instance — the first flush rotates the image and
sets the idempotency flag, any flush with the flag set leaves the canvas
untouched (so `sendRotate` is idempotent), and `New` clears the flag so a
fresh canvas is rotated again on its first flush. -/
theorem sendRotate_once_spec {Img : Type} (rot90 rot180 rot270 : Img → Img)
    (freshImage : Int → Img) (r : Int) (c : Canvas Img) :
    (c.rotationState = false → c.rotation = 90 →
      sendRotate rot90 rot180 rot270 c =
        { c with image := rot90 c.image, rotationState := true }) ∧
    (c.rotationState = false → c.rotation = 180 →
      sendRotate rot90 rot180 rot270 c =
        { c with image := rot180 c.image, rotationState := true }) ∧
    (c.rotationState = false → c.rotation = 270 →
      sendRotate rot90 rot180 rot270 c =
        { c with image := rot270 c.image, rotationState := true }) ∧
    (c.rotationState = true → sendRotate rot90 rot180 rot270 c = c) ∧
    (sendRotate rot90 rot180 rot270 (sendRotate rot90 rot180 rot270 c) =
      sendRotate rot90 rot180 rot270 c) ∧
    ((canvasNew freshImage r c).rotationState = false ∧
      (canvasNew freshImage r c).rotation = r) := by
  refine ⟨?_, ?_, ?_, ?_, ?_, rfl, rfl⟩
  · intro h0 h90
    simp [sendRotate, h0, h90]
  · intro h0 h180
    simp [sendRotate, h0, h180]
  · intro h0 h270
    simp [sendRotate, h0, h270]
  · intro h1
    simp [sendRotate, h1]
  · by_cases hs : c.rotationState = true
    · simp [sendRotate, hs]
    · have hs0 : c.rotationState = false := by
        simpa using hs
      by_cases h90 : c.rotation = 90
      · simp [sendRotate, hs0, h90]
      · by_cases h180 : c.rotation = 180
        · simp [sendRotate, hs0, h90, h180]
        · by_cases h270 : c.rotation = 270
          · simp [sendRotate, hs0, h90, h180, h270]
          · simp [sendRotate, hs0, h90, h180, h270]

/-- A fresh canvas configured for 90-degree rotation. -/
def canvas90 : Canvas Nat := ⟨90, false, 0⟩

/-- Witness for C9: the first flush of `canvas90` rotates (image 0 becomes
1 under the stand-in rotation `+1`) and sets the flag; a second flush
leaves the canvas unchanged; `New` clears the flag. -/
theorem sendRotate_once_spec_witness :
    sendRotate (fun n : Nat => n + 1) (fun n => n + 2) (fun n => n + 3) canvas90 =
      { canvas90 with image := canvas90.image + 1, rotationState := true } ∧
    sendRotate (fun n : Nat => n + 1) (fun n => n + 2) (fun n => n + 3)
        (sendRotate (fun n => n + 1) (fun n => n + 2) (fun n => n + 3) canvas90) =
      sendRotate (fun n : Nat => n + 1) (fun n => n + 2) (fun n => n + 3) canvas90 ∧
    (canvasNew (fun _ => (0 : Nat)) 90 canvas90).rotationState = false :=
  ⟨(sendRotate_once_spec (fun n => n + 1) (fun n => n + 2) (fun n => n + 3)
      (fun _ => 0) 90 canvas90).1 rfl rfl,
   (sendRotate_once_spec (fun n => n + 1) (fun n => n + 2) (fun n => n + 3)
      (fun _ => 0) 90 canvas90).2.2.2.2.1,
   (sendRotate_once_spec (fun n => n + 1) (fun n => n + 2) (fun n => n + 3)
      (fun _ => 0) 90 canvas90).2.2.2.2.2.1⟩

/-! ## Dynamic binarization threshold

`fontSize` is a Go `float64` holding small decimal values; it is embedded
as `ℚ`, on which the two bucket comparisons are exact. -/

/-- `baseAntiAliasThresh = 90` from the constants block. -/
def baseAntiAliasThresh : Nat := 90

/-- `sizeThresholdSmall = 12.0`. -/
def sizeThresholdSmall : ℚ := 12

/-- `sizeThresholdLarge = 24.0`. -/
def sizeThresholdLarge : ℚ := 24

/-- `getDynamicThreshold` (`ext/nanohatoled.go:202`): bucket select on the
current font size, then scale by 256 into the 16-bit channel range. -/
def getDynamicThreshold (fontSize : ℚ) : Nat :=
  (if fontSize ≤ sizeThresholdSmall then baseAntiAliasThresh - 10
   else if sizeThresholdLarge ≤ fontSize then baseAntiAliasThresh + 10
   else baseAntiAliasThresh) * 256

/-- The per-pixel binarization test of `Image` (`ext/nanohatoled.go:233`):
`gray := uint16((r+g+b)/3)` (the cast is the `% 65536` reduction) and the
pixel becomes white iff `gray > threshold`. -/
def imagePixelWhite (fontSize : ℚ) (r g b : Nat) : Bool :=
  decide (getDynamicThreshold fontSize < ((r + g + b) / 3) % 65536)

/-- The per-pixel test of `Send` (`ext/nanohatoled.go:286`): `gray` stays
in `uint32` and the written bit is 1 iff `gray > threshold`. -/
def sendPixelBit (fontSize : ℚ) (r g b : Nat) : Nat :=
  if getDynamicThreshold fontSize < (r + g + b) / 3 then 1 else 0

/-- Claim C8: the dynamic threshold is `(90−10)·256` for font size ≤ 12,
`90·256` for sizes strictly between 12 and 24, and `(90+10)·256` for sizes
≥ 24 — strictly increasing across the buckets — and `Image` (import
binarization) and `Send` (canvas flush) decide each pixel by the identical
threshold test for all 16-bit channel values. -/
theorem dynamicThreshold_spec (fontSize : ℚ) :
    (fontSize ≤ 12 → getDynamicThreshold fontSize = (90 - 10) * 256) ∧
    (12 < fontSize → fontSize < 24 → getDynamicThreshold fontSize = 90 * 256) ∧
    (24 ≤ fontSize → getDynamicThreshold fontSize = (90 + 10) * 256) ∧
    ((90 - 10) * 256 < 90 * 256 ∧ 90 * 256 < (90 + 10) * 256) ∧
    (∀ r g b : Nat, r ≤ 65535 → g ≤ 65535 → b ≤ 65535 →
      (imagePixelWhite fontSize r g b = true ↔ sendPixelBit fontSize r g b = 1)) := by
  refine ⟨?_, ?_, ?_, by norm_num, ?_⟩
  · intro h
    unfold getDynamicThreshold sizeThresholdSmall baseAntiAliasThresh
    rw [if_pos h]
  · intro h1 h2
    unfold getDynamicThreshold sizeThresholdSmall sizeThresholdLarge baseAntiAliasThresh
    rw [if_neg (not_le.mpr h1), if_neg (not_le.mpr h2)]
  · intro h
    unfold getDynamicThreshold sizeThresholdSmall sizeThresholdLarge baseAntiAliasThresh
    rw [if_neg (not_le.mpr (by linarith)), if_pos h]
  · intro r g b hr hg hb
    have h3 : (r + g + b) / 3 < 65536 := by omega
    unfold imagePixelWhite sendPixelBit
    rw [Nat.mod_eq_of_lt h3]
    rcases Classical.em (getDynamicThreshold fontSize < (r + g + b) / 3) with h | h
    · simp [h]
    · simp [h]

/-- Witness for C8: one font size per bucket, and agreement of the two
per-pixel tests on a pure-white pixel at the default size 14. -/
theorem dynamicThreshold_spec_witness :
    getDynamicThreshold 10 = (90 - 10) * 256 ∧
    getDynamicThreshold 14 = 90 * 256 ∧
    getDynamicThreshold 24 = (90 + 10) * 256 ∧
    (imagePixelWhite 14 65535 65535 65535 = true ↔
      sendPixelBit 14 65535 65535 65535 = 1) :=
  ⟨(dynamicThreshold_spec 10).1 (by norm_num),
   (dynamicThreshold_spec 14).2.1 (by norm_num) (by norm_num),
   (dynamicThreshold_spec 24).2.2.1 (by norm_num),
   (dynamicThreshold_spec 14).2.2.2.2 65535 65535 65535
     (by norm_num) (by norm_num) (by norm_num)⟩

/-! ## Year progress text (`getYearProgressText`, main daemon)

`percent` is computed in `float64` as `(now−start)/(end−start)*100` from
Unix second counts; those counts are far below 2^53, so the float value
differs from the exact fraction by a relative error below 2^-50, while
every comparison and rounding this function performs on it has margin at
least 2^-30 at the inputs considered.  The computation is therefore
embedded exactly, as integer arithmetic on the fraction
`(now−start)*100 / (end−start)`.  The `time.Date(...).Unix()` year
boundaries are taken as the parameters `startU` and `endU`. -/

/-- `int(percent / 10)`: Go's float-to-int conversion truncates toward
zero; on the exact fraction this is `trunc((now−start)*100 / ((end−start)*10))`. -/
def yearBarLen (nowU startU endU : Int) : Int :=
  Int.tdiv ((nowU - startU) * 100) ((endU - startU) * 10)

/-- The clamping of `barLen` into [0, 10] performed by
`getYearProgressText`. -/
def yearBarLenClamped (nowU startU endU : Int) : Int :=
  if yearBarLen nowU startU endU < 0 then 0
  else if 10 < yearBarLen nowU startU endU then 10
  else yearBarLen nowU startU endU

/-- A decimal digit character, modelling Go's integer formatting. -/
def digitChar (d : Nat) : Char := Char.ofNat (48 + d % 10)

/-- Decimal digits of `n` (most significant first), fuel-based so that it
evaluates by kernel reduction; fuel `n` always suffices. -/
def natDigits : Nat → Nat → List Char
  | 0, n => [digitChar n]
  | fuel + 1, n =>
      if n < 10 then [digitChar n]
      else natDigits fuel (n / 10) ++ [digitChar (n % 10)]

def natToStr (n : Nat) : String := String.mk (natDigits n n)

/-- Round the fraction `a / den` (for `den > 0`) to the nearest integer
with ties to even — the rounding Go's `strconv` applies for `%.1f`. -/
def roundHalfEvenFrac (a den : Int) : Int :=
  let f := Int.fdiv a den
  let r := a - f * den
  if 2 * r < den then f
  else if den < 2 * r then f + 1
  else if Int.emod f 2 = 0 then f else f + 1

/-- `fmt.Sprintf("%.1f", ·)` applied to the exact fraction `a / den`. -/
def pct1String (a den : Int) : String :=
  let n := roundHalfEvenFrac (a * 10) den
  if n < 0 then
    "-" ++ natToStr ((-n).toNat / 10) ++ "." ++ natToStr ((-n).toNat % 10)
  else natToStr (n.toNat / 10) ++ "." ++ natToStr (n.toNat % 10)

/-- The filled bar glyph `"▓"`. -/
def filledCell : Char := '▓'

/-- The unfilled bar glyph `"░"`. -/
def emptyCell : Char := '░'

/-- `getYearProgressText` (main daemon): a bar of 10 cells with `barLen`
filled ones, then the percentage to one decimal and a percent sign. -/
def getYearProgressText (nowU startU endU : Int) : String :=
  String.mk (List.replicate (yearBarLenClamped nowU startU endU).toNat filledCell) ++
  String.mk (List.replicate (10 - yearBarLenClamped nowU startU endU).toNat emptyCell) ++
  pct1String ((nowU - startU) * 100) (endU - startU) ++ "%"

/-- The filled-cell count the claim specifies: `floor(percent/10)` clamped
to `[0, 10]`, with a genuine floor division. -/
def specFilledCells (nowU startU endU : Int) : Int :=
  max 0 (min 10 (Int.fdiv ((nowU - startU) * 100) ((endU - startU) * 10)))

/-- Claim C7 (counterexample): one second before the end of year 2025
(Unix bounds 1735689600 and 1767225600), the elapsed percentage is
99.99999683… , so `int(percent/10)` truncates to 9: the bar renders 9
filled cells, not the claimed 10, while the percentage itself prints as
`100.0%`. -/
theorem yearProgress_counterexample :
    (getYearProgressText 1767225599 1735689600 1767225600).data.count filledCell ≠ 10 ∧
    (getYearProgressText 1767225599 1735689600 1767225600).data.count filledCell = 9 := by
  refine ⟨by decide, by decide⟩

/-- Claim C7 (amended): the rendered bar has 10 cells, with a filled-cell
count equal to `floor(percent/10)` clamped to `[0, 10]` (truncation and
floor agree after clamping for any date at or after the year start); a
date exactly at the year start renders 0 filled cells and `0.0%`; a date
one second before the next year renders `100.0%` but only 9 filled cells,
because its percentage is strictly below 100. -/
theorem yearProgress_spec (nowU startU endU : Int) :
    (startU ≤ nowU → startU < endU →
      yearBarLenClamped nowU startU endU = specFilledCells nowU startU endU) ∧
    (0 ≤ yearBarLenClamped nowU startU endU ∧
      yearBarLenClamped nowU startU endU ≤ 10) ∧
    (filledCell ∉ (pct1String ((nowU - startU) * 100) (endU - startU)).data →
      (getYearProgressText nowU startU endU).data.count filledCell =
        (yearBarLenClamped nowU startU endU).toNat) ∧
    (startU < endU → getYearProgressText startU startU endU = "░░░░░░░░░░0.0%") ∧
    getYearProgressText 1767225599 1735689600 1767225600 = "▓▓▓▓▓▓▓▓▓░100.0%" := by
  refine ⟨?_, ?_, ?_, ?_, by decide⟩
  · intro hn hl
    have ha : 0 ≤ (nowU - startU) * 100 := by omega
    have hb : 0 ≤ (endU - startU) * 10 := by omega
    have htf : Int.tdiv ((nowU - startU) * 100) ((endU - startU) * 10) =
        Int.fdiv ((nowU - startU) * 100) ((endU - startU) * 10) := by
      rw [Int.tdiv_eq_ediv ha hb, Int.fdiv_eq_ediv _ hb]
    unfold yearBarLenClamped specFilledCells yearBarLen
    rw [htf]
    split_ifs <;> omega
  · unfold yearBarLenClamped
    split_ifs <;> omega
  · intro hnot
    unfold getYearProgressText
    simp only [String.data_append, List.count_append]
    rw [List.count_replicate, List.count_replicate, List.count_eq_zero.mpr hnot]
    have hef : (emptyCell == filledCell) = false := by decide
    have hff : (filledCell == filledCell) = true := by decide
    have hpc : List.count filledCell ['%'] = 0 := by decide
    rw [hef, hff, hpc]
    simp
  · intro hl
    have e1 : yearBarLenClamped startU startU endU = 0 := by
      unfold yearBarLenClamped yearBarLen
      simp [Int.zero_tdiv]
    have e2 : pct1String ((startU - startU) * 100) (endU - startU) = "0.0" := by
      unfold pct1String roundHalfEvenFrac
      simp only [sub_self, zero_mul, Int.zero_fdiv, mul_zero, sub_zero]
      rw [if_pos (show (0 : Int) < endU - startU by omega)]
      decide
    unfold getYearProgressText
    rw [e1, e2]
    decide

/-- Witness for C7: midway through a 200-second "year", the bar shows 5 of
10 cells (truncation matches the clamped floor) and the percentage text
contains no bar glyph; at the year start the full empty-bar string is
rendered. -/
theorem yearProgress_spec_witness :
    yearBarLenClamped 100 0 200 = specFilledCells 100 0 200 ∧
    (getYearProgressText 100 0 200).data.count filledCell =
      (yearBarLenClamped 100 0 200).toNat ∧
    getYearProgressText 0 0 200 = "░░░░░░░░░░0.0%" :=
  ⟨(yearProgress_spec 100 0 200).1 (by decide) (by decide),
   (yearProgress_spec 100 0 200).2.2.1 (by decide),
   (yearProgress_spec 0 0 200).2.2.2.1 (by decide)⟩

end NanoHatOled
